import Mathlib

set_option autoImplicit false
set_option maxRecDepth 16000

/-!
Shallow embedding of `src/reverb.c` (Dattoro reverberator) and proofs about it.

Modelling conventions:
* C `float`/`double` arithmetic is modelled exactly over `ℚ`; every claim we
  settle depends only on field identities (or on concrete values that are exact
  in binary floating point), never on rounding error.
* The transcendental functions from `math.h` (`sin`, `M_PI`, `pow`) have no
  exact rational counterpart; they are abstracted into a `RealOps` parameter.
  All settled claims are independent of the choice of `RealOps`.
* Sample buffers (`float *samples`, allocated with `calloc`/`realloc` and
  zero-filled) are modelled as total functions `ℕ → ℚ`.
* C `int` values that can go negative (`delay_length` arguments, tap indices,
  `excursion`) are modelled as `ℤ`; struct fields that stay non-negative in
  every reachable state are modelled as `ℕ`.
* The C double→int conversion truncates toward zero; `ctrunc` models it.
-/

namespace Dattoro

/-- Model of C's double-to-int conversion: truncation toward zero. -/
def ctrunc (q : ℚ) : ℤ := if 0 ≤ q then ⌊q⌋ else ⌈q⌉

/-- Abstraction of the `math.h` real-number operations used by `reverb.c`
(`M_PI`, `sin`, `pow`) over the exact rational carrier. -/
structure RealOps where
  piQ : ℚ
  sinQ : ℚ → ℚ
  powQ : ℚ → ℚ → ℚ

/-- Model of `struct DelayLine` from `reverb.h`.  The C field `float *samples` is the
buffer (modelled as a total function, `calloc` zero-fill and `realloc`
zero-fill of the new region are modelled explicitly). -/
structure DelayLine where
  samples : ℕ → ℚ
  n_samples : ℕ
  max_n_samples : ℕ
  read_head : ℕ
  write_head : ℕ

/-- Model of `#define INIT_DELAY_MAX 1024` from `reverb.h`. -/
def INIT_DELAY_MAX : ℕ := 1024

/-- Model of `create_delay` from `reverb.c`: zero-filled buffer of capacity
`INIT_DELAY_MAX`, `n_samples = 0`, `read_head = 1`, `write_head = 0`. -/
def create_delay : DelayLine :=
  { samples := fun _ => 0
    n_samples := 0
    max_n_samples := INIT_DELAY_MAX
    read_head := 1
    write_head := 0 }

/-- Model of `delay_in` from `reverb.c`: store at the write head, advance both heads,
reset each head to `0` once it reaches `n_samples`. -/
def delay_in (d : DelayLine) (sample : ℚ) : DelayLine :=
  let w := d.write_head + 1
  let r := d.read_head + 1
  { d with
      samples := fun i => if i = d.write_head then sample else d.samples i
      read_head := if d.n_samples ≤ r then 0 else r
      write_head := if d.n_samples ≤ w then 0 else w }

/-- Model of `delay_out` from `reverb.c`: read the sample at the read head (pure). -/
def delay_out (d : DelayLine) : ℚ := d.samples d.read_head

/-- Model of `delay` from `reverb.c`: `delay_in` followed by `delay_out`; the model
returns the produced sample together with the mutated line. -/
def delay (d : DelayLine) (sample : ℚ) : ℚ × DelayLine :=
  let d1 := delay_in d sample
  (delay_out d1, d1)

/-- Wrap-up loop of `get_delay`: `while (rindex < 0) rindex += n_samples`.
For `rindex < 0` and `n > 0` the loop lands on the unique representative in
`[0, n)`, which is `rindex % n` (Euclidean mod).  For `n = 0` the C loop does
not terminate (never reached by the program); the model returns `rindex`. -/
def wrap_tap_index (rindex : ℤ) (n : ℕ) : ℤ :=
  if rindex < 0 then (if n = 0 then rindex else rindex % (n : ℤ)) else rindex

/-- Model of `get_delay` from `reverb.c`: non-mutating tap at `write_head - index`,
wrapped upward into range by repeatedly adding `n_samples`. -/
def get_delay (d : DelayLine) (index : ℤ) : ℚ :=
  d.samples (wrap_tap_index ((d.write_head : ℤ) - index) d.n_samples).toNat

/-- Model of `expand_delay` from `reverb.c`: `realloc` to the requested capacity and
zero-fill the newly added region `[old_length, new capacity)`. -/
def expand_delay (d : DelayLine) (samples_arg : ℤ) : DelayLine :=
  let old_length := d.max_n_samples
  let new_max := samples_arg.toNat
  { d with
      max_n_samples := new_max
      samples := fun i => if old_length ≤ i ∧ i < new_max then 0 else d.samples i }

/-- Expansion loop of `set_delay`:
`while (delay_length >= max_n_samples) expand_delay(delay, delay_length + 1000)`.
The loop body always raises the capacity above `delay_length`, so it executes
at most once; termination is by the gap between `delay_length` and capacity. -/
def expand_while (d : DelayLine) (delay_length : ℤ) : DelayLine :=
  if h : (d.max_n_samples : ℤ) ≤ delay_length then
    expand_while (expand_delay d (delay_length + 1000)) delay_length
  else d
termination_by (delay_length + 1001 - (d.max_n_samples : ℤ)).toNat
decreasing_by
  simp only [expand_delay]
  omega

/-- Model of `set_delay` from `reverb.c`: expand capacity while needed, set the active
length when `2 < delay_length ≤ capacity`, pull each head back to `0` when it
falls outside the active length, and force the heads apart (read head to `1`)
when they coincide. -/
def set_delay (d0 : DelayLine) (delay_length : ℤ) : DelayLine :=
  let d1 := expand_while d0 delay_length
  let d2 := if 2 < delay_length ∧ delay_length ≤ (d1.max_n_samples : ℤ) then
      { d1 with n_samples := delay_length.toNat } else d1
  let d3 := if d2.n_samples ≤ d2.read_head then { d2 with read_head := 0 } else d2
  let d4 := if d3.n_samples ≤ d3.write_head then { d3 with write_head := 0 } else d3
  if d4.read_head = d4.write_head then { d4 with read_head := 1 } else d4

/-- Model of `#define MODDELAY_INTERPOLATION_LINEAR 0` from `reverb.h`. -/
def MODDELAY_INTERPOLATION_LINEAR : ℕ := 0

/-- Model of `#define MODDELAY_INTERPOLATION_ALLPASS 1` from `reverb.h`. -/
def MODDELAY_INTERPOLATION_ALLPASS : ℕ := 1

/-- Model of `struct ModDelayLine` from `reverb.h`.  The C struct also declares fields
`read_head` and `sample_rate` that no function of `reverb.c` ever initialises
or reads; they are omitted from the model.  `modulated` is a C int used only
as a boolean flag (`0`/`1`). -/
structure ModDelayLine where
  samples : ℕ → ℚ
  n_samples : ℕ
  max_n_samples : ℕ
  read_offset : ℕ
  read_fraction : ℚ
  excursion : ℤ
  phase : ℚ
  modulation_frequency : ℚ
  modulation_extent : ℚ
  interpolation_mode : ℕ
  modulated : Bool
  write_head : ℕ
  allpass_a : ℚ

/-- Model of `create_mdelay` from `reverb.c`.  Note the C code assigns
`n_samples = INIT_DELAY_MAX * 2` and then immediately `n_samples = 0`; the
final value `0` is kept. -/
def create_mdelay : ModDelayLine :=
  { samples := fun _ => 0
    n_samples := 0
    max_n_samples := INIT_DELAY_MAX * 2
    read_offset := INIT_DELAY_MAX
    read_fraction := 0
    excursion := 0
    phase := 0
    modulation_frequency := 0
    modulation_extent := 0
    interpolation_mode := MODDELAY_INTERPOLATION_ALLPASS
    modulated := false
    write_head := 0
    allpass_a := 0 }

/-- Model of `set_modulation_mdelay` from `reverb.c`, translated exactly: both the
clamp test and the `modulated`/`excursion` update inspect the PREVIOUSLY
stored `modulation_extent`; only afterwards are the two arguments stored. -/
def set_modulation_mdelay (d0 : ModDelayLine)
    (modulation_extent modulation_frequency : ℚ) : ModDelayLine :=
  let d1 := if (d0.read_offset : ℚ) ≤ d0.modulation_extent then
      { d0 with modulation_extent := (d0.read_offset : ℚ) - 1 } else d0
  let d2 := if d1.modulation_extent = 0 then
      { d1 with modulated := false, excursion := 0 }
    else
      { d1 with modulated := true }
  { d2 with
      modulation_extent := modulation_extent
      modulation_frequency := modulation_frequency }

/-- Model of `mdelay_in` from `reverb.c`: store at the write head and advance it; when
modulated, advance the LFO phase by `2*M_PI*modulation_frequency` and derive
`excursion = floor(offset)` and `read_fraction = offset - floor(offset)` from
`offset = sin(phase) * modulation_extent`; finally wrap the write head. -/
def mdelay_in (ops : RealOps) (d0 : ModDelayLine) (sample : ℚ) : ModDelayLine :=
  let d1 := { d0 with
      samples := fun i => if i = d0.write_head then sample else d0.samples i
      write_head := d0.write_head + 1 }
  let d2 := if d1.modulated then
      let phase := d1.phase + 2 * ops.piQ * d1.modulation_frequency
      let offset := ops.sinQ phase * d1.modulation_extent
      { d1 with
          phase := phase
          excursion := ⌊offset⌋
          read_fraction := offset - ⌊offset⌋ }
    else d1
  if d2.n_samples ≤ d2.write_head then { d2 with write_head := 0 } else d2

/-- Index `aread` of `mdelay_out`: `write_head + read_offset + excursion`,
brought down by `n_samples` once when it reaches `n_samples`. -/
def mread_a (d : ModDelayLine) : ℕ :=
  (let aread : ℤ := (d.write_head : ℤ) + d.read_offset + d.excursion
   if (d.n_samples : ℤ) ≤ aread then aread - d.n_samples else aread).toNat

/-- Index `bread` of `mdelay_out`: one past `aread`, wrapped the same way. -/
def mread_b (d : ModDelayLine) : ℕ :=
  (let bread : ℤ := (d.write_head : ℤ) + d.read_offset + d.excursion + 1
   if (d.n_samples : ℤ) ≤ bread then bread - d.n_samples else bread).toNat

/-- Model of `mdelay_out` from `reverb.c`: read the two candidate samples; return `a`
unmodulated, the linear mix under LINEAR interpolation, and under ALLPASS the
one-pole allpass output `b*fr + a - fr*allpass_a` with
`fr = (1-(1-read_fraction))/(1+(1-read_fraction))`, which is stored back into
the persistent `allpass_a` state.  The model returns the sample with the
(possibly) mutated line. -/
def mdelay_out (d : ModDelayLine) : ℚ × ModDelayLine :=
  let an := d.samples (mread_a d)
  let bn := d.samples (mread_b d)
  if ¬ d.modulated then (an, d)
  else if d.interpolation_mode = MODDELAY_INTERPOLATION_LINEAR then
    ((1 - d.read_fraction) * an + d.read_fraction * bn, d)
  else
    let fr := (1 - (1 - d.read_fraction)) / (1 + (1 - d.read_fraction))
    let out := bn * fr + an - fr * d.allpass_a
    (out, { d with allpass_a := out })

/-- Model of `set_mdelay` from `reverb.c`: expand capacity to `2*delay_length + 1`
(zero-filling the new region) when `2*delay_length` reaches it, update
`read_offset` only when `delay_length > 2`, and set the active length to
`2*delay_length` unconditionally. -/
def set_mdelay (d0 : ModDelayLine) (delay_length : ℤ) : ModDelayLine :=
  let d1 := if (d0.max_n_samples : ℤ) ≤ delay_length * 2 then
      { d0 with
          max_n_samples := (delay_length * 2 + 1).toNat
          samples := fun i =>
            if d0.max_n_samples ≤ i ∧ i < (delay_length * 2 + 1).toNat then 0
            else d0.samples i }
    else d0
  let d2 := if 2 < delay_length then { d1 with read_offset := delay_length.toNat } else d1
  { d2 with n_samples := (delay_length * 2).toNat }

/-- Model of `struct DattoroReverb` from `reverb.h`.  The C struct also declares
`max_excursion_1`/`max_excursion_2`, never used by any function; they are
omitted.  `wet_gain`/`dry_gain` are ordinary fields; see `create_reverb` for
how their `malloc` garbage is modelled. -/
structure DattoroReverb where
  pre_delay : DelayLine
  bandwidth : ℚ
  damping : ℚ
  decay : ℚ
  decay_diffusion_1 : ℚ
  decay_diffusion_2 : ℚ
  input_diffusion_1 : ℚ
  input_diffusion_2 : ℚ
  delay_142 : DelayLine
  delay_379 : DelayLine
  delay_107 : DelayLine
  delay_277 : DelayLine
  delay_672 : ModDelayLine
  delay_908 : ModDelayLine
  delay_4453 : DelayLine
  delay_4217 : DelayLine
  delay_3720 : DelayLine
  delay_3163 : DelayLine
  delay_1800 : DelayLine
  delay_2656 : DelayLine
  pre_sample : ℚ
  diffusion_sample_a : ℚ
  diffusion_sample_b : ℚ
  wet_gain : ℚ
  dry_gain : ℚ
  sample_rate : ℤ

/-- Model of `set_default_reverb` from `reverb.c` (0.7, 0.6, 0.6, 0.55, 0.625, 0.5,
0.05 — all exactly representable decimals, written as rationals). -/
def set_default_reverb (r : DattoroReverb) : DattoroReverb :=
  { r with
      decay := 7/10
      decay_diffusion_1 := 3/5
      decay_diffusion_2 := 3/5
      input_diffusion_1 := 11/20
      input_diffusion_2 := 5/8
      bandwidth := 1/2
      damping := 1/20 }

/-- Model of `set_predelay_reverb` from `reverb.c`: `set_delay(pre_delay,
predelay * sample_rate)` with the usual double-to-int truncation. -/
def set_predelay_reverb (r : DattoroReverb) (predelay : ℚ) : DattoroReverb :=
  { r with pre_delay := set_delay r.pre_delay (ctrunc (predelay * (r.sample_rate : ℚ))) }

/-- Model of `set_bandwidth_reverb` from `reverb.c`. -/
def set_bandwidth_reverb (r : DattoroReverb) (bandwidth : ℚ) : DattoroReverb :=
  { r with bandwidth := bandwidth }

/-- Model of `set_damping_reverb` from `reverb.c`. -/
def set_damping_reverb (r : DattoroReverb) (damping : ℚ) : DattoroReverb :=
  { r with damping := damping }

/-- Model of `set_decay_reverb` from `reverb.c`. -/
def set_decay_reverb (r : DattoroReverb) (decay : ℚ) : DattoroReverb :=
  { r with decay := decay }

/-- Model of `set_decay_diffusion_1_reverb` from `reverb.c`. -/
def set_decay_diffusion_1_reverb (r : DattoroReverb) (v : ℚ) : DattoroReverb :=
  { r with decay_diffusion_1 := v }

/-- Model of `set_decay_diffusion_2_reverb` from `reverb.c`. -/
def set_decay_diffusion_2_reverb (r : DattoroReverb) (v : ℚ) : DattoroReverb :=
  { r with decay_diffusion_2 := v }

/-- Model of `set_input_diffusion_1_reverb` from `reverb.c`. -/
def set_input_diffusion_1_reverb (r : DattoroReverb) (v : ℚ) : DattoroReverb :=
  { r with input_diffusion_1 := v }

/-- Model of `set_input_diffusion_2_reverb` from `reverb.c`. -/
def set_input_diffusion_2_reverb (r : DattoroReverb) (v : ℚ) : DattoroReverb :=
  { r with input_diffusion_2 := v }

/-- Model of `set_modulation_reverb` from `reverb.c`.  The reference LFO rates 1.25 Hz
and 4.87 Hz are written as rationals (their exact values are irrelevant to
every claim; no settled claim depends on a stored frequency). -/
def set_modulation_reverb (r : DattoroReverb) (modulation : ℚ) : DattoroReverb :=
  { r with
      delay_672 := set_modulation_mdelay r.delay_672 (60 * modulation)
        (5/4 / (r.sample_rate : ℚ))
      delay_908 := set_modulation_mdelay r.delay_908 (40 * modulation)
        (487/100 / (r.sample_rate : ℚ)) }

/-- Model of `set_size_reverb` from `reverb.c`: `sr_ratio = factor * sample_rate /
29761.0`, then each line length is `referenceLength * sr_ratio`, truncated by
the implicit double-to-int conversion at the call. -/
def set_size_reverb (r : DattoroReverb) (factor : ℚ) : DattoroReverb :=
  let sr_ratio : ℚ := factor * (r.sample_rate : ℚ) / 29761
  { r with
      delay_142 := set_delay r.delay_142 (ctrunc (142 * sr_ratio))
      delay_379 := set_delay r.delay_379 (ctrunc (379 * sr_ratio))
      delay_107 := set_delay r.delay_107 (ctrunc (107 * sr_ratio))
      delay_277 := set_delay r.delay_277 (ctrunc (277 * sr_ratio))
      delay_672 := set_mdelay r.delay_672 (ctrunc (672 * sr_ratio))
      delay_4453 := set_delay r.delay_4453 (ctrunc (4453 * sr_ratio))
      delay_4217 := set_delay r.delay_4217 (ctrunc (4217 * sr_ratio))
      delay_3720 := set_delay r.delay_3720 (ctrunc (3720 * sr_ratio))
      delay_3163 := set_delay r.delay_3163 (ctrunc (3163 * sr_ratio))
      delay_1800 := set_delay r.delay_1800 (ctrunc (1800 * sr_ratio))
      delay_2656 := set_delay r.delay_2656 (ctrunc (2656 * sr_ratio))
      delay_908 := set_mdelay r.delay_908 (ctrunc (908 * sr_ratio)) }

/-- Model of `create_reverb` from `reverb.c`.  The struct comes from `malloc`, so every
field not subsequently assigned holds indeterminate garbage; `create_reverb`
assigns every field except `wet_gain` and `dry_gain`, whose garbage is made
explicit as the parameters `wet_junk`/`dry_junk`.  The coefficient fields are
given placeholder `0` in the initial literal purely to form a total record;
each of them is overwritten by `set_default_reverb` before the constructor
returns, so the placeholder never survives. -/
def create_reverb (wet_junk dry_junk : ℚ) (sample_rate : ℤ) : DattoroReverb :=
  let r0 : DattoroReverb :=
    { pre_delay := create_delay
      bandwidth := 0
      damping := 0
      decay := 0
      decay_diffusion_1 := 0
      decay_diffusion_2 := 0
      input_diffusion_1 := 0
      input_diffusion_2 := 0
      delay_142 := create_delay
      delay_379 := create_delay
      delay_107 := create_delay
      delay_277 := create_delay
      delay_672 := create_mdelay
      delay_908 := create_mdelay
      delay_4453 := create_delay
      delay_4217 := create_delay
      delay_3720 := create_delay
      delay_3163 := create_delay
      delay_1800 := create_delay
      delay_2656 := create_delay
      pre_sample := 0
      diffusion_sample_a := 0
      diffusion_sample_b := 0
      wet_gain := wet_junk
      dry_gain := dry_junk
      sample_rate := sample_rate }
  let r1 := set_predelay_reverb r0 (1/1000)
  let r2 := set_size_reverb r1 1
  let r3 := { r2 with
      delay_672 := set_modulation_mdelay r2.delay_672 60 (5/4 / (sample_rate : ℚ)) }
  let r4 := { r3 with
      delay_908 := set_modulation_mdelay r3.delay_908 40 (487/100 / (sample_rate : ℚ)) }
  set_default_reverb r4

/-- Model of `db_to_gain` from `reverb.c`: `10^(db/20)` through the abstracted `pow`. -/
def db_to_gain (ops : RealOps) (db : ℚ) : ℚ := ops.powQ 10 (db / 20)

/-- Model of `set_gain_reverb` from `reverb.c`: the only writer of
`dry_gain`/`wet_gain`. -/
def set_gain_reverb (ops : RealOps) (r : DattoroReverb)
    (dry_gain_db wet_gain_db : ℚ) : DattoroReverb :=
  { r with
      dry_gain := db_to_gain ops dry_gain_db
      wet_gain := db_to_gain ops wet_gain_db }

/-- Diffusion-stage pattern of `compute_reverb` for the lines 142 and 107:
`y = delay_out(line) * g; z = x - y; delay_in(line, z); emit y + z*g`.
Note the coefficient is applied to the raw read BEFORE forming `y`. -/
def stageA (g : ℚ) (line : DelayLine) (x : ℚ) : ℚ × DelayLine :=
  let y := delay_out line * g
  let z := x - y
  (y + z * g, delay_in line z)

/-- Diffusion-stage pattern of `compute_reverb` for the lines 379, 277, 1800
and 2656: `y = delay_out(line); z = x - y*g; delay_in(line, z); emit y + z*g`
(the standard lattice allpass). -/
def stageB (g : ℚ) (line : DelayLine) (x : ℚ) : ℚ × DelayLine :=
  let y := delay_out line
  let z := x - y * g
  (y + z * g, delay_in line z)

/-- The same lattice-allpass pattern applied to a modulated line (lines 672
and 908 of the tank): `y = mdelay_out; z = x - y*g; mdelay_in z; emit y + z*g`.
`mdelay_out` may mutate the line (its allpass state), and `mdelay_in` is then
applied to the mutated line. -/
def mstageB (ops : RealOps) (g : ℚ) (line : ModDelayLine) (x : ℚ) :
    ℚ × ModDelayLine :=
  let yd := mdelay_out line
  let z := x - yd.1 * g
  (yd.1 + z * g, mdelay_in ops yd.2 z)

/-- Input of loop P in `compute_reverb` (line 470 of `reverb.c`):
`p = decay * delay_out(delay_3720) + x`. -/
def pInput (r : DattoroReverb) (x : ℚ) : ℚ :=
  r.decay * delay_out r.delay_3720 + x

/-- Input of loop Q in `compute_reverb` (line 471 of `reverb.c`):
`q = decay * delay_out(delay_3163) + x`. -/
def qInput (r : DattoroReverb) (x : ℚ) : ℚ :=
  r.decay * delay_out r.delay_3163 + x

/-- Left output taps of `compute_reverb` (\"// left taps\"): seven fixed
offsets, each weighted by `0.6 = 3/5`, read from the updated lines. -/
def left_taps (d4217 d2656 d3163 d4453 d1800 d3720 : DelayLine) : ℚ :=
  3/5 * get_delay d4217 266 + 3/5 * get_delay d4217 2974
    - 3/5 * get_delay d2656 1913 + 3/5 * get_delay d3163 1996
    - 3/5 * get_delay d4453 1990 - 3/5 * get_delay d1800 187
    - 3/5 * get_delay d3720 1066

/-- Right output taps of `compute_reverb` (\"// right taps\"). -/
def right_taps (d4217 d2656 d3163 d4453 d1800 d3720 : DelayLine) : ℚ :=
  3/5 * get_delay d4453 353 + 3/5 * get_delay d4453 3627
    - 3/5 * get_delay d1800 1228 + 3/5 * get_delay d3720 2673
    - 3/5 * get_delay d4217 2111 - 3/5 * get_delay d2656 335
    - 3/5 * get_delay d3163 121

/-- Model of `compute_reverb` from `reverb.c`, one stereo sample pair in, one out.
The model returns `(out_l, out_r, mutated tank)`. -/
def compute_reverb (ops : RealOps) (r : DattoroReverb) (l rr : ℚ) :
    ℚ × ℚ × DattoroReverb :=
  let x0 := (l + rr) / 2
  let pd := delay r.pre_delay x0
  let x2 := r.bandwidth * pd.1 + (1 - r.bandwidth) * r.pre_sample
  let s142 := stageA r.input_diffusion_1 r.delay_142 x2
  let s107 := stageA r.input_diffusion_1 r.delay_107 s142.1
  let s379 := stageB r.input_diffusion_2 r.delay_379 s107.1
  let s277 := stageB r.input_diffusion_2 r.delay_277 s379.1
  let x6 := s277.1
  let p0 := pInput r x6
  let q0 := qInput r x6
  let m672 := mstageB ops r.decay_diffusion_1 r.delay_672 p0
  let pd4453 := delay r.delay_4453 m672.1
  let p3 := (1 - r.damping) * pd4453.1 + r.damping * r.diffusion_sample_a
  let p4 := p3 * r.decay
  let s1800 := stageB r.decay_diffusion_2 r.delay_1800 p4
  let d3720 := delay_in r.delay_3720 s1800.1
  let m908 := mstageB ops r.decay_diffusion_1 r.delay_908 q0
  let qd4217 := delay r.delay_4217 m908.1
  let q3 := (1 - r.damping) * qd4217.1 + r.damping * r.diffusion_sample_b
  let q4 := q3 * r.decay
  let s2656 := stageB r.decay_diffusion_2 r.delay_2656 q4
  let d3163 := delay_in r.delay_3163 s2656.1
  let yl := left_taps qd4217.2 s2656.2 d3163 pd4453.2 s1800.2 d3720
  let yr := right_taps qd4217.2 s2656.2 d3163 pd4453.2 s1800.2 d3720
  (yl, yr,
    { r with
        pre_delay := pd.2
        pre_sample := x2
        delay_142 := s142.2
        delay_107 := s107.2
        delay_379 := s379.2
        delay_277 := s277.2
        delay_672 := m672.2
        delay_4453 := pd4453.2
        diffusion_sample_a := p3
        delay_1800 := s1800.2
        delay_3720 := d3720
        delay_908 := m908.2
        delay_4217 := qd4217.2
        diffusion_sample_b := q3
        delay_2656 := s2656.2
        delay_3163 := d3163 })

/-- Model of `mono_reverb_buffer` from `reverb.c`: per sample, feed it to both channels
and overwrite it with `dry_gain*input + wet_gain*out_l`. -/
def mono_reverb_buffer (ops : RealOps) (r : DattoroReverb) :
    List ℚ → List ℚ × DattoroReverb
  | [] => ([], r)
  | b :: rest =>
      let c := compute_reverb ops r b b
      let out := c.2.2.dry_gain * b + c.2.2.wet_gain * c.1
      let tail := mono_reverb_buffer ops c.2.2 rest
      (out :: tail.1, tail.2)

/-- Model of `stereo_reverb_buffer` from `reverb.c` on an interleaved stereo buffer.
The C loop steps by 2; a trailing odd sample would be read out of bounds by
the C code and is left untouched by the model. -/
def stereo_reverb_buffer (ops : RealOps) (r : DattoroReverb) :
    List ℚ → List ℚ × DattoroReverb
  | b1 :: b2 :: rest =>
      let c := compute_reverb ops r b1 b2
      let out1 := c.2.2.dry_gain * b1 + c.2.2.wet_gain * c.1
      let out2 := c.2.2.dry_gain * b2 + c.2.2.wet_gain * c.2.1
      let tail := stereo_reverb_buffer ops c.2.2 rest
      (out1 :: out2 :: tail.1, tail.2)
  | rest => (rest, r)

/-! Claim-support definitions: spec-modelled comparators, concrete states,
reachability and invariants.  Everything below is still a definition; theorems
follow after. -/

/-- Trivial instantiation of the abstracted real operations, used when
evaluating the model at concrete inputs on code paths that never invoke
`sin`/`pow` (all lines unmodulated, gains unused). -/
def ops0 : RealOps :=
  { piQ := 0
    sinQ := fun _ => 0
    powQ := fun _ _ => 0 }

/-- Spec-modelled counterpart of `pInput` for claim C1, following the spec's
words: loop P's input reads the long delay line that loop Q writes, which in
`compute_reverb` is `delay_3163` (the Q loop ends with
`delay_in(delay_3163, q)`). -/
def pInput_spec (r : DattoroReverb) (x : ℚ) : ℚ :=
  r.decay * delay_out r.delay_3163 + x

/-- Spec-modelled counterpart of `qInput` for claim C1: loop Q's input reads
the long delay line that loop P writes, which in `compute_reverb` is
`delay_3720` (the P loop ends with `delay_in(delay_3720, p)`). -/
def qInput_spec (r : DattoroReverb) (x : ℚ) : ℚ :=
  r.decay * delay_out r.delay_3720 + x

/-- Spec-modelled diffusion-stage output for claim C3, following the spec's
words: with stage input `x`, coefficient `g` and prior raw line output `y`,
the stage emits `y + g*(x - g*y)`. -/
def diffusion_stage_spec (g y x : ℚ) : ℚ := y + g * (x - g * y)

/-- Spec-modelled left output taps for claim C2, following the spec's words:
every fixed tap offset used by the output stage is rescaled by the same
`ratio` applied to the line lengths. -/
def left_taps_spec (ratio : ℚ) (d4217 d2656 d3163 d4453 d1800 d3720 : DelayLine) : ℚ :=
  3/5 * get_delay d4217 (ctrunc (266 * ratio)) + 3/5 * get_delay d4217 (ctrunc (2974 * ratio))
    - 3/5 * get_delay d2656 (ctrunc (1913 * ratio)) + 3/5 * get_delay d3163 (ctrunc (1996 * ratio))
    - 3/5 * get_delay d4453 (ctrunc (1990 * ratio)) - 3/5 * get_delay d1800 (ctrunc (187 * ratio))
    - 3/5 * get_delay d3720 (ctrunc (1066 * ratio))

/-- Plain all-zero delay line with the given length and head positions; the
capacity `30000` is large enough that the resizings used in the concrete
evaluations below never enter the reallocation loop. -/
def zero_line (n r w : ℕ) : DelayLine :=
  { samples := fun _ => 0
    n_samples := n
    max_n_samples := 30000
    read_head := r
    write_head := w }

/-- Concrete delay line whose current output (`delay_out`) is `1`: a single
`1` planted at the read head, everything else zero. -/
def unit_line : DelayLine :=
  { samples := fun i => if i = 2 then 1 else 0
    n_samples := 10
    max_n_samples := INIT_DELAY_MAX
    read_head := 2
    write_head := 7 }

/-- Concrete tank state exhibiting the C1 divergence: `delay_3720` (the line
the P loop itself writes) holds `1` at its read head, `delay_3163` (the line
the Q loop writes) is all zero, `decay = 0.7`, every other coefficient `0`. -/
def tank_c1 : DattoroReverb :=
  { pre_delay := zero_line 10 1 0
    bandwidth := 0
    damping := 0
    decay := 7/10
    decay_diffusion_1 := 0
    decay_diffusion_2 := 0
    input_diffusion_1 := 0
    input_diffusion_2 := 0
    delay_142 := zero_line 10 1 0
    delay_379 := zero_line 10 1 0
    delay_107 := zero_line 10 1 0
    delay_277 := zero_line 10 1 0
    delay_672 := create_mdelay
    delay_908 := create_mdelay
    delay_4453 := zero_line 10 1 0
    delay_4217 := zero_line 10 1 0
    delay_3720 := unit_line
    delay_3163 := zero_line 10 2 7
    delay_1800 := zero_line 10 1 0
    delay_2656 := zero_line 10 1 0
    pre_sample := 0
    diffusion_sample_a := 0
    diffusion_sample_b := 0
    wet_gain := 0
    dry_gain := 0
    sample_rate := 29761 }

/-- Base tank for the C2 counterexample, before sizing: all coefficients `0`,
sample rate `29761`, all lines zero except `delay_4217`, which holds a single
`1` at buffer position `235` (the position a factor-2-sized `compute_reverb`
reads for its first left tap at offset `266`). -/
def tank_c2_base : DattoroReverb :=
  { pre_delay := zero_line 10 1 0
    bandwidth := 0
    damping := 0
    decay := 0
    decay_diffusion_1 := 0
    decay_diffusion_2 := 0
    input_diffusion_1 := 0
    input_diffusion_2 := 0
    delay_142 := zero_line 10 1 0
    delay_379 := zero_line 10 1 0
    delay_107 := zero_line 10 1 0
    delay_277 := zero_line 10 1 0
    delay_672 := create_mdelay
    delay_908 := create_mdelay
    delay_4453 := zero_line 10 1 0
    delay_4217 :=
      { samples := fun i => if i = 235 then 1 else 0
        n_samples := 10
        max_n_samples := 30000
        read_head := 100
        write_head := 500 }
    delay_3720 := zero_line 10 1 0
    delay_3163 := zero_line 10 1 0
    delay_1800 := zero_line 10 1 0
    delay_2656 := zero_line 10 1 0
    pre_sample := 0
    diffusion_sample_a := 0
    diffusion_sample_b := 0
    wet_gain := 0
    dry_gain := 0
    sample_rate := 29761 }

/-- C2 counterexample tank: `tank_c2_base` resized with factor `2`
(`sr_ratio = 2` at the 29761 Hz reference rate). -/
def tank_c2 : DattoroReverb := set_size_reverb tank_c2_base 2

/-- Result of one `compute_reverb` call on `tank_c2` with silent input. -/
def tank_c2_result : ℚ × ℚ × DattoroReverb := compute_reverb ops0 tank_c2 0 0

/-- Delay line as configured by `set_delay(create_delay(), L)` for `L > 2`:
zero buffer, active length `L`, read head `1`, write head `0`, capacity grown
to `L + 1000` when `L` reached the initial capacity. -/
def fresh_line (L : ℕ) : DelayLine :=
  { samples := fun _ => 0
    n_samples := L
    max_n_samples := if INIT_DELAY_MAX ≤ L then L + 1000 else INIT_DELAY_MAX
    read_head := 1
    write_head := 0 }

/-- Impulse input stream for claim C4: `1` on the first call, `0` after. -/
def impulse_input (k : ℕ) : ℚ := if k = 1 then 1 else 0

/-- State of a freshly configured length-`L` line after `k` impulse-stream
`delay_in` calls. -/
def impulse_run (L : ℕ) : ℕ → DelayLine
  | 0 => fresh_line L
  | k + 1 => delay_in (impulse_run L k) (impulse_input (k + 1))

/-- Output read (`delay_out`) after the `k`-th impulse-stream call. -/
def nth_impulse_out (L k : ℕ) : ℚ := delay_out (impulse_run L k)

/-- States of a `DelayLine` reachable through the constructor and mutators
named by claim C6: `create_delay`, `delay_in`, `set_delay`. -/
inductive ReachableDelay : DelayLine → Prop where
  | create : ReachableDelay create_delay
  | step_in (d : DelayLine) (x : ℚ) : ReachableDelay d → ReachableDelay (delay_in d x)
  | step_set (d : DelayLine) (len : ℤ) : ReachableDelay d → ReachableDelay (set_delay d len)

/-- Invariant of reachable `DelayLine` states: the active length never
exceeds the capacity, the capacity never drops below `INIT_DELAY_MAX`, and
either the line is still unconfigured (`n_samples = 0`, write head `0`, read
head at most `1`) or it is configured with `n_samples > 2`, both heads in
range and distinct. -/
def DelayInv (d : DelayLine) : Prop :=
  d.n_samples ≤ d.max_n_samples ∧ INIT_DELAY_MAX ≤ d.max_n_samples ∧
    ((d.n_samples = 0 ∧ d.write_head = 0 ∧ d.read_head ≤ 1) ∨
      (2 < d.n_samples ∧ d.read_head < d.n_samples ∧ d.write_head < d.n_samples ∧
        d.read_head ≠ d.write_head))

/-- Zero-buffer predicate for a plain delay line. -/
def ZeroBuf (d : DelayLine) : Prop := ∀ i, d.samples i = 0

/-- Zero-buffer and unmodulated predicate for a modulated delay line (in this
configuration `mdelay_out` and `mdelay_in` never touch the LFO or the allpass
state). -/
def ZeroMLine (m : ModDelayLine) : Prop :=
  (∀ i, m.samples i = 0) ∧ m.modulated = false

/-- All-silent tank configuration: every buffer zero, both modulated lines
unmodulated, and all three persistent filter-state scalars zero. -/
def ZeroTank (r : DattoroReverb) : Prop :=
  ZeroBuf r.pre_delay ∧ ZeroBuf r.delay_142 ∧ ZeroBuf r.delay_379 ∧
    ZeroBuf r.delay_107 ∧ ZeroBuf r.delay_277 ∧ ZeroMLine r.delay_672 ∧
    ZeroMLine r.delay_908 ∧ ZeroBuf r.delay_4453 ∧ ZeroBuf r.delay_4217 ∧
    ZeroBuf r.delay_3720 ∧ ZeroBuf r.delay_3163 ∧ ZeroBuf r.delay_1800 ∧
    ZeroBuf r.delay_2656 ∧ r.pre_sample = 0 ∧ r.diffusion_sample_a = 0 ∧
    r.diffusion_sample_b = 0

/-- Tank obtained from a fresh `create_reverb` after `n` silent
`compute_reverb` calls. -/
def zero_run (ops : RealOps) (wet_junk dry_junk : ℚ) (sample_rate : ℤ) :
    ℕ → DattoroReverb
  | 0 => create_reverb wet_junk dry_junk sample_rate
  | n + 1 => (compute_reverb ops (zero_run ops wet_junk dry_junk sample_rate n) 0 0).2.2

/-- Concrete modulated line in ALLPASS mode with modulation enabled, used to
witness claim C8: two distinct samples at the candidate read positions, a
nonzero fraction and a nonzero persistent allpass state. -/
def mline_c8 : ModDelayLine :=
  { create_mdelay with
      samples := fun i => if i = 5 then 2 else if i = 6 then 3 else 0
      n_samples := 8
      read_offset := 3
      read_fraction := 1/2
      excursion := 0
      modulated := true
      write_head := 2
      allpass_a := 1/4 }

/-- Tank in the reference topology of claim C9: `create_reverb(29761)`
followed by `set_size_reverb(reverb, 1.0)`. -/
def reverb_ref : DattoroReverb := set_size_reverb (create_reverb 0 0 29761) 1

/-- Size ratio of `set_size_reverb`, named for use in theorem statements:
`sr_ratio = factor * sample_rate / 29761.0`. -/
def size_ratio (r : DattoroReverb) (factor : ℚ) : ℚ :=
  factor * (r.sample_rate : ℚ) / 29761

attribute [ext] DelayLine

/-! Theorems.  General lemmas about the delay-line primitives come first, the
per-claim theorems after. -/

/-- Unfolding of the `set_delay` expansion loop: since the loop body raises
the capacity to `delay_length + 1000`, the `while` executes at most once. -/
theorem expand_while_eq (d : DelayLine) (len : ℤ) :
    expand_while d len =
      if (d.max_n_samples : ℤ) ≤ len then expand_delay d (len + 1000) else d := by
  by_cases h : (d.max_n_samples : ℤ) ≤ len
  · rw [if_pos h, expand_while, dif_pos h, expand_while, dif_neg]
    simp only [expand_delay]
    omega
  · rw [if_neg h, expand_while, dif_neg h]

/-- Expansion never changes the active length or the heads. -/
theorem expand_while_fields (d : DelayLine) (len : ℤ) :
    (expand_while d len).n_samples = d.n_samples ∧
    (expand_while d len).read_head = d.read_head ∧
    (expand_while d len).write_head = d.write_head := by
  rw [expand_while_eq]
  split <;> simp [expand_delay]

/-- Capacity after the expansion loop always strictly exceeds a nonnegative
requested length, and never shrinks. -/
theorem expand_while_max (d : DelayLine) (len : ℤ) :
    len < ((expand_while d len).max_n_samples : ℤ) ∧
    d.max_n_samples ≤ (expand_while d len).max_n_samples := by
  rw [expand_while_eq]
  split <;> simp [expand_delay] <;> omega

/-- Active length after `set_delay`: the capacity check always passes after
expansion, so the length is updated exactly when the request exceeds `2`. -/
theorem set_delay_n_samples (d : DelayLine) (len : ℤ) :
    (set_delay d len).n_samples = if 2 < len then len.toNat else d.n_samples := by
  obtain ⟨hmax, _⟩ := expand_while_max d len
  obtain ⟨hn, _, _⟩ := expand_while_fields d len
  simp only [set_delay]
  split_ifs with h1 h2 <;> simp_all <;> omega

/-- Interpolation coefficient identity used by `mdelay_out`: the C expression
`(1-(1-f))/(1+(1-f))` is exactly `f/(2-f)`. -/
theorem allpass_coefficient (f : ℚ) :
    (1 - (1 - f)) / (1 + (1 - f)) = f / (2 - f) := by
  have h1 : (1 : ℚ) - (1 - f) = f := by ring
  have h2 : (1 : ℚ) + (1 - f) = 2 - f := by ring
  rw [h1, h2]

/-- C1 (code divergence, evaluated at a concrete failing state): with
`decay = 0.7`, all other coefficients zero, silent input, `delay_3720`
reading `1` and `delay_3163` reading `0`, `compute_reverb` forms
`p = 0.7` and `q = 0` — loop P reads `delay_3720`, the very line the P loop
ends by writing (`delay_in(delay_3720, p)`), and Q likewise reads its own
`delay_3163` — while the spec's cross-feed formulas give `p = 0`, `q = 0.7`. -/
theorem c1_cross_feed_divergence :
    pInput tank_c1 0 = 7/10 ∧ qInput tank_c1 0 = 0 ∧
    pInput_spec tank_c1 0 = 0 ∧ qInput_spec tank_c1 0 = 7/10 ∧
    (7/10 : ℚ) ≠ 0 := by with_unfolding_all decide

/-- C3 (code divergence, evaluated at a concrete failing input): at raw prior
line output `1`, coefficient `1/2` and stage input `0`, the 142/107-style
stage (`stageA`) emits `1/4`, while the 379/277-style stage (`stageB`) and
the spec's common formula `y + g*(x - g*y)` both give `3/4`; the value the
stage writes into the line does agree with the claim (`0 - g*y = -1/2`). -/
theorem c3_stage_divergence :
    (stageA (1/2) unit_line 0).1 = 1/4 ∧
    (stageB (1/2) unit_line 0).1 = 3/4 ∧
    diffusion_stage_spec (1/2) (delay_out unit_line) 0 = 3/4 ∧
    (stageA (1/2) unit_line 0).2.samples unit_line.write_head
      = 0 - 1/2 * delay_out unit_line ∧
    (1/4 : ℚ) ≠ 3/4 := by with_unfolding_all decide

/-- C5 (code divergence, evaluated at a concrete failing input): on a fresh
modulated line (`read_offset = 1024`, stored extent `0`),
`set_modulation_mdelay(d, 2000, 0.01)` stores the unclamped extent `2000`
(the clamp tested the OLD extent) and leaves `modulated = false` (also decided
from the old extent); a subsequent `set_modulation_mdelay(d, 0, 0.01)` then
leaves `modulated = true` even though the extent argument is `0`. -/
theorem c5_modulation_clamp_divergence :
    ((set_modulation_mdelay create_mdelay 2000 (1/100)).modulation_extent = 2000 ∧
      (set_modulation_mdelay create_mdelay 2000 (1/100)).read_offset = 1024 ∧
      ¬ (set_modulation_mdelay create_mdelay 2000 (1/100)).modulation_extent
          < ((set_modulation_mdelay create_mdelay 2000 (1/100)).read_offset : ℚ) - 1) ∧
    (set_modulation_mdelay create_mdelay 2000 (1/100)).modulated = false ∧
    ((set_modulation_mdelay (set_modulation_mdelay create_mdelay 2000 (1/100))
        0 (1/100)).modulated = true ∧
      (set_modulation_mdelay (set_modulation_mdelay create_mdelay 2000 (1/100))
        0 (1/100)).modulation_extent = 0) := by with_unfolding_all decide

/-- C8: with modulation enabled and ALLPASS interpolation, `mdelay_out`
returns `b*c + a - c*s` where `a`, `b` are the samples at the wrapped indices
`write_head + read_offset + excursion` and one beyond it (`mread_a`,
`mread_b`), `c = read_fraction / (2 - read_fraction)`, and `s` is the
persistent allpass state; the returned value is stored as the new state. -/
theorem c8_allpass_output (d : ModDelayLine) (hmod : d.modulated = true)
    (hmode : d.interpolation_mode = MODDELAY_INTERPOLATION_ALLPASS) :
    (mdelay_out d).1 =
      d.samples (mread_b d) * (d.read_fraction / (2 - d.read_fraction))
        + d.samples (mread_a d)
        - d.read_fraction / (2 - d.read_fraction) * d.allpass_a ∧
    (mdelay_out d).2.allpass_a = (mdelay_out d).1 := by
  unfold mdelay_out
  rw [hmod, hmode]
  rw [if_neg (by simp : ¬¬(true = true))]
  rw [if_neg (by decide : ¬(MODDELAY_INTERPOLATION_ALLPASS = MODDELAY_INTERPOLATION_LINEAR))]
  simp only [allpass_coefficient]
  constructor <;> trivial

/-- Witness for C8 at the concrete state `mline_c8`. -/
theorem c8_allpass_output_witness :
    mline_c8.modulated = true ∧
    mline_c8.interpolation_mode = MODDELAY_INTERPOLATION_ALLPASS ∧
    ((mdelay_out mline_c8).1 =
      mline_c8.samples (mread_b mline_c8)
          * (mline_c8.read_fraction / (2 - mline_c8.read_fraction))
        + mline_c8.samples (mread_a mline_c8)
        - mline_c8.read_fraction / (2 - mline_c8.read_fraction) * mline_c8.allpass_a ∧
      (mdelay_out mline_c8).2.allpass_a = (mdelay_out mline_c8).1) :=
  ⟨by with_unfolding_all decide, by with_unfolding_all decide, c8_allpass_output mline_c8 (by with_unfolding_all decide) (by with_unfolding_all decide)⟩

/-- Configuration bridge for C4: `set_delay` on a fresh line with `L > 2`
yields exactly `fresh_line L`. -/
theorem expand_while_create (L : ℕ) :
    expand_while create_delay (L : ℤ) =
      { samples := fun _ => 0
        n_samples := 0
        max_n_samples := if INIT_DELAY_MAX ≤ L then L + 1000 else INIT_DELAY_MAX
        read_head := 1
        write_head := 0 } := by
  rw [expand_while_eq]
  by_cases hexp : ((create_delay.max_n_samples : ℤ)) ≤ (L : ℤ)
  · rw [if_pos hexp]
    have hgek : INIT_DELAY_MAX ≤ L := by
      have := hexp
      simp only [create_delay] at this
      exact_mod_cast this
    apply DelayLine.ext
    · funext i
      simp [expand_delay, create_delay]
    · rfl
    · simp only [expand_delay, create_delay]
      rw [if_pos hgek]
      omega
    · rfl
    · rfl
  · rw [if_neg hexp]
    have hltk : ¬ INIT_DELAY_MAX ≤ L := by
      intro hc
      apply hexp
      simp only [create_delay]
      exact_mod_cast hc
    apply DelayLine.ext
    · rfl
    · rfl
    · simp only [create_delay]
      rw [if_neg hltk]
    · rfl
    · rfl

theorem set_delay_create (L : ℕ) (hL : 2 < L) :
    set_delay create_delay (L : ℤ) = fresh_line L := by
  simp only [set_delay, expand_while_create]
  rw [if_pos (show 2 < (L : ℤ) ∧ (L : ℤ) ≤
      ((if INIT_DELAY_MAX ≤ L then L + 1000 else INIT_DELAY_MAX : ℕ) : ℤ) by
    constructor
    · exact_mod_cast hL
    · split
      · omega
      · rename_i h
        simp only [INIT_DELAY_MAX] at h ⊢
        omega)]
  rw [if_neg (show ¬ ((L : ℤ).toNat ≤ 1) by omega)]
  rw [if_neg (show ¬ ((L : ℤ).toNat ≤ 0) by omega)]
  rw [if_neg (show ¬ (1 = 0) by omega)]
  apply DelayLine.ext <;> simp [fresh_line] <;> omega

theorem succ_mod_shift (L a : ℕ) (hL : 1 < L) :
    (a + 1) % L = (a % L + 1) % L := by
  conv_lhs => rw [Nat.add_mod]
  rw [Nat.mod_eq_of_lt hL]

/-- State characterisation for C4: after `k` impulse-stream calls, a freshly
configured length-`L` line holds the impulse at slot `0` exactly while
`1 ≤ k ≤ L`, with both heads advanced `k` steps modulo `L`. -/
theorem impulse_run_eq (L : ℕ) (hL : 2 < L) (k : ℕ) :
    impulse_run L k =
      { samples := fun i => if i = 0 ∧ 1 ≤ k ∧ k ≤ L then 1 else 0
        n_samples := L
        max_n_samples := if INIT_DELAY_MAX ≤ L then L + 1000 else INIT_DELAY_MAX
        read_head := (k + 1) % L
        write_head := k % L } := by
  induction k with
  | zero =>
      apply DelayLine.ext
      · funext i
        simp [impulse_run, fresh_line]
      · simp [impulse_run, fresh_line]
      · simp [impulse_run, fresh_line]
      · simp only [impulse_run, fresh_line]
        rw [Nat.mod_eq_of_lt (by omega)]
      · simp only [impulse_run, fresh_line]
        rw [Nat.zero_mod]
  | succ k ih =>
      rw [impulse_run, ih]
      apply DelayLine.ext
      · funext i
        simp only [delay_in, impulse_input]
        rcases Nat.lt_or_ge k L with hkL | hkL
        · rw [Nat.mod_eq_of_lt hkL]
          split_ifs <;> first | rfl | (exfalso; omega)
        · rcases eq_or_lt_of_le hkL with rfl | hk
          · simp only [Nat.mod_self]
            split_ifs <;> first | rfl | (exfalso; omega)
          · have hmm : k % L < L := Nat.mod_lt _ (by omega)
            split_ifs <;> first | rfl | (exfalso; omega)
      · simp [delay_in]
      · simp [delay_in]
      · simp only [delay_in]
        have hlt : (k + 1) % L < L := Nat.mod_lt _ (by omega)
        rw [succ_mod_shift L (k + 1) (by omega)]
        by_cases hc : L ≤ (k + 1) % L + 1
        · rw [if_pos hc]
          have hEq : (k + 1) % L + 1 = L := by omega
          rw [hEq, Nat.mod_self]
        · rw [if_neg hc]
          have h2 : ((k + 1) % L + 1) % L = (k + 1) % L + 1 :=
            Nat.mod_eq_of_lt (by omega)
          rw [h2]
      · simp only [delay_in]
        have hlt : k % L < L := Nat.mod_lt _ (by omega)
        rw [succ_mod_shift L k (by omega)]
        by_cases hc : L ≤ k % L + 1
        · rw [if_pos hc]
          have hEq : k % L + 1 = L := by omega
          rw [hEq, Nat.mod_self]
        · rw [if_neg hc]
          have h2 : (k % L + 1) % L = k % L + 1 :=
            Nat.mod_eq_of_lt (by omega)
          rw [h2]

/-- Output characterisation for C4: the impulse is reproduced exactly at the
read of call `L - 1` (that is, `L - 2` calls after the call that wrote it)
and the output is `0` at every other call. -/
theorem nth_impulse_out_eq (L : ℕ) (hL : 2 < L) (k : ℕ) :
    nth_impulse_out L k = if k = L - 1 then 1 else 0 := by
  unfold nth_impulse_out delay_out
  rw [impulse_run_eq L hL k]
  show (if (k + 1) % L = 0 ∧ 1 ≤ k ∧ k ≤ L then (1 : ℚ) else 0)
      = if k = L - 1 then 1 else 0
  rcases Nat.lt_or_ge (k + 1) L with h2 | h2
  · rw [Nat.mod_eq_of_lt h2,
      if_neg (show ¬ (k + 1 = 0 ∧ 1 ≤ k ∧ k ≤ L) by omega),
      if_neg (show ¬ k = L - 1 by omega)]
  · rcases eq_or_lt_of_le h2 with h3 | h3
    · rw [← h3, Nat.mod_self,
        if_pos (show (0 : ℕ) = 0 ∧ 1 ≤ k ∧ k ≤ L by omega),
        if_pos (show k = L - 1 by omega)]
    · rcases eq_or_lt_of_le (show L ≤ k by omega) with h5 | h5
      · have hm : (k + 1) % L = 1 := by
          rw [← h5, succ_mod_shift L L (by omega), Nat.mod_self]
          exact Nat.mod_eq_of_lt (by omega)
        rw [hm,
          if_neg (show ¬ ((1 : ℕ) = 0 ∧ 1 ≤ k ∧ k ≤ L) by omega),
          if_neg (show ¬ k = L - 1 by omega)]
      · rw [if_neg (show ¬ ((k + 1) % L = 0 ∧ 1 ≤ k ∧ k ≤ L) by omega),
          if_neg (show ¬ k = L - 1 by omega)]

/-- C4 (amended): a fresh line configured to length `L > 2` has read head `1`
and write head `0`; feeding the impulse stream, `delay_out` reproduces the
`1.0` exactly at call `L - 1` — i.e. the effective delay is `L - 2` calls,
not `L` — and `0` at every other call. -/
theorem c4_impulse_fidelity (L k : ℕ) (hL : 2 < L) :
    set_delay create_delay (L : ℤ) = fresh_line L ∧
    nth_impulse_out L k = if k = L - 1 then 1 else 0 :=
  ⟨set_delay_create L hL, nth_impulse_out_eq L hL k⟩

/-- Witness for C4 at `L = 5`, `k = 4`. -/
theorem c4_impulse_fidelity_witness :
    2 < 5 ∧ (set_delay create_delay ((5 : ℕ) : ℤ) = fresh_line 5 ∧
      nth_impulse_out 5 4 = if 4 = 5 - 1 then 1 else 0) :=
  ⟨by decide, c4_impulse_fidelity 5 4 (by decide)⟩

/-- C4 counterexample: for `L = 5` the impulse reappears at the read of call
`4`, while the reads of calls `3`, `5` and `6` are `0`; so the `1.0` is not
reproduced at the `L`-th read under either way of counting the reads, and
`delay_out` does not return the sample written `L` calls earlier. -/
theorem c4_counterexample :
    nth_impulse_out 5 4 = 1 ∧ nth_impulse_out 5 5 = 0 ∧
    nth_impulse_out 5 3 = 0 ∧ nth_impulse_out 5 6 = 0 := by
  with_unfolding_all decide

/-- Creation establishes the delay-line invariant. -/
theorem delayInv_create : DelayInv create_delay := by
  unfold DelayInv
  decide

/-- Taking a sample preserves the delay-line invariant. -/
theorem delayInv_delay_in (d : DelayLine) (x : ℚ) (h : DelayInv d) :
    DelayInv (delay_in d x) := by
  obtain ⟨h1, h2, h3⟩ := h
  unfold DelayInv INIT_DELAY_MAX at *
  simp only [delay_in]
  split_ifs <;> omega

/-- Resizing preserves the delay-line invariant, always leaves the two heads
distinct, and leaves the active length unchanged for requests of at most 2. -/
theorem delayInv_set_delay (d : DelayLine) (len : ℤ) (h : DelayInv d) :
    DelayInv (set_delay d len) ∧
    (set_delay d len).read_head ≠ (set_delay d len).write_head ∧
    (len ≤ 2 → (set_delay d len).n_samples = d.n_samples) := by
  obtain ⟨h1, h2, h3⟩ := h
  obtain ⟨hm1, hm2⟩ := expand_while_max d len
  obtain ⟨he1, he2, he3⟩ := expand_while_fields d len
  unfold DelayInv INIT_DELAY_MAX at *
  simp only [set_delay]
  split_ifs <;> simp_all <;> omega

/-- Every reachable delay line satisfies the invariant. -/
theorem reachable_delayInv (d : DelayLine) (h : ReachableDelay d) : DelayInv d := by
  induction h with
  | create => exact delayInv_create
  | step_in d x _ ih => exact delayInv_delay_in d x ih
  | step_set d len _ ih => exact (delayInv_set_delay d len ih).1

/-- C6 (amended): in every reachable `DelayLine` state the active length
never exceeds the capacity, and the heads lie inside `[0, n_samples)` except
in the unconfigured case `n_samples = 0` (which includes the state right
after `create_delay`, where `read_head = 1`); `set_delay` always leaves the
heads distinct, and a request of at most `2` leaves the length unchanged. -/
theorem c6_invariants (d : DelayLine) (len : ℤ) (hd : ReachableDelay d) :
    (d.n_samples ≤ d.max_n_samples ∧
      (d.n_samples = 0 ∨ (d.read_head < d.n_samples ∧ d.write_head < d.n_samples))) ∧
    (set_delay d len).read_head ≠ (set_delay d len).write_head ∧
    (2 < len ∨ (set_delay d len).n_samples = d.n_samples) := by
  have hi := reachable_delayInv d hd
  have hs := delayInv_set_delay d len hi
  obtain ⟨h1, _, h3⟩ := hi
  refine ⟨⟨h1, ?_⟩, hs.2.1, ?_⟩
  · rcases h3 with ⟨h3, _, _⟩ | ⟨_, h4, h5, _⟩
    · exact Or.inl h3
    · exact Or.inr ⟨h4, h5⟩
  · by_cases hlen : 2 < len
    · exact Or.inl hlen
    · exact Or.inr (hs.2.2 (by omega))

/-- Witness for C6 at the reachable state `create_delay` and request `1`. -/
theorem c6_invariants_witness :
    (create_delay.n_samples ≤ create_delay.max_n_samples ∧
      (create_delay.n_samples = 0 ∨
        (create_delay.read_head < create_delay.n_samples ∧
          create_delay.write_head < create_delay.n_samples))) ∧
    (set_delay create_delay 1).read_head ≠ (set_delay create_delay 1).write_head ∧
    (2 < (1 : ℤ) ∨ (set_delay create_delay 1).n_samples = create_delay.n_samples) :=
  c6_invariants create_delay 1 ReachableDelay.create

/-- C6 counterexample: the state right after `create_delay` is reachable yet
has `read_head = 1` outside `[0, n_samples) = [0, 0)`, so the heads do not
always lie within `[0, n_samples)`. -/
theorem c6_counterexample :
    ReachableDelay create_delay ∧ create_delay.read_head = 1 ∧
      create_delay.n_samples = 0 ∧
      ¬ create_delay.read_head < create_delay.n_samples :=
  ⟨ReachableDelay.create, rfl, rfl, by decide⟩

/-- Buffer of a fresh line is zero. -/
theorem zerobuf_create : ZeroBuf create_delay := fun _ => rfl

/-- Reading an all-zero line yields zero. -/
theorem delay_out_zero (d : DelayLine) (h : ZeroBuf d) : delay_out d = 0 := h _

/-- Tapping an all-zero line yields zero. -/
theorem get_delay_zero (d : DelayLine) (h : ZeroBuf d) (idx : ℤ) :
    get_delay d idx = 0 := h _

/-- Writing a zero into an all-zero line keeps it all zero. -/
theorem zerobuf_delay_in (d : DelayLine) (h : ZeroBuf d) : ZeroBuf (delay_in d 0) := by
  intro i
  simp only [delay_in]
  split_ifs <;> first | rfl | exact h i

/-- Combined write/read on an all-zero line: zero out, line stays zero. -/
theorem delay_zero (d : DelayLine) (h : ZeroBuf d) :
    (delay d 0).1 = 0 ∧ ZeroBuf (delay d 0).2 :=
  ⟨zerobuf_delay_in d h _, zerobuf_delay_in d h⟩

/-- Expansion preserves an all-zero buffer. -/
theorem zerobuf_expand_while (d : DelayLine) (len : ℤ) (h : ZeroBuf d) :
    ZeroBuf (expand_while d len) := by
  rw [expand_while_eq]
  split
  · intro i
    simp only [expand_delay]
    split_ifs <;> first | rfl | exact h i
  · exact h

/-- Resizing preserves an all-zero buffer. -/
theorem zerobuf_set_delay (d : DelayLine) (len : ℤ) (h : ZeroBuf d) :
    ZeroBuf (set_delay d len) := by
  intro i
  simp only [set_delay]
  split_ifs <;> exact zerobuf_expand_while d len h i

/-- Diffusion stage of the first kind on an all-zero line with zero input:
zero out, line stays zero. -/
theorem stageA_zero (g : ℚ) (d : DelayLine) (h : ZeroBuf d) :
    (stageA g d 0).1 = 0 ∧ ZeroBuf (stageA g d 0).2 := by
  have hz : (0 : ℚ) - delay_out d * g = 0 := by
    rw [delay_out_zero d h]; ring
  constructor
  · simp [stageA, delay_out_zero d h]
  · simp only [stageA, hz]
    exact zerobuf_delay_in d h

/-- Diffusion stage of the second kind on an all-zero line with zero input:
zero out, line stays zero. -/
theorem stageB_zero (g : ℚ) (d : DelayLine) (h : ZeroBuf d) :
    (stageB g d 0).1 = 0 ∧ ZeroBuf (stageB g d 0).2 := by
  have hz : (0 : ℚ) - delay_out d * g = 0 := by
    rw [delay_out_zero d h]; ring
  constructor
  · simp [stageB, delay_out_zero d h]
  · simp only [stageB, hz]
    exact zerobuf_delay_in d h

/-- Reading an all-zero unmodulated line: zero out, state untouched. -/
theorem zeroM_mdelay_out (m : ModDelayLine) (h : ZeroMLine m) :
    (mdelay_out m).1 = 0 ∧ (mdelay_out m).2 = m := by
  obtain ⟨hb, hm⟩ := h
  unfold mdelay_out
  rw [hm, if_pos (show ¬ (false = true) by simp)]
  exact ⟨hb _, rfl⟩

/-- Writing a zero into an all-zero unmodulated line keeps it all zero and
unmodulated. -/
theorem zeroM_mdelay_in (ops : RealOps) (m : ModDelayLine) (h : ZeroMLine m) :
    ZeroMLine (mdelay_in ops m 0) := by
  obtain ⟨hb, hm⟩ := h
  unfold ZeroMLine
  simp only [mdelay_in, hm, Bool.false_eq_true, if_false]
  constructor
  · intro i
    split_ifs <;> simp [hb i]
  · split_ifs <;> rfl

/-- Modulated-line diffusion stage on an all-zero unmodulated line with zero
input: zero out, line stays zero and unmodulated. -/
theorem mstageB_zero (ops : RealOps) (g : ℚ) (m : ModDelayLine) (h : ZeroMLine m) :
    (mstageB ops g m 0).1 = 0 ∧ ZeroMLine (mstageB ops g m 0).2 := by
  have hout := zeroM_mdelay_out m h
  have hz : (0 : ℚ) - (mdelay_out m).1 * g = 0 := by
    rw [hout.1]; ring
  constructor
  · simp [mstageB, hout.1]
  · simp only [mstageB, hz, hout.2]
    exact zeroM_mdelay_in ops m h

/-- Left taps of all-zero lines sum to zero. -/
theorem left_taps_zero (a b c d e f : DelayLine) (ha : ZeroBuf a) (hb : ZeroBuf b)
    (hc : ZeroBuf c) (hd : ZeroBuf d) (he : ZeroBuf e) (hf : ZeroBuf f) :
    left_taps a b c d e f = 0 := by
  simp [left_taps, get_delay_zero _ ha, get_delay_zero _ hb, get_delay_zero _ hc,
    get_delay_zero _ hd, get_delay_zero _ he, get_delay_zero _ hf]

/-- Right taps of all-zero lines sum to zero. -/
theorem right_taps_zero (a b c d e f : DelayLine) (ha : ZeroBuf a) (hb : ZeroBuf b)
    (hc : ZeroBuf c) (hd : ZeroBuf d) (he : ZeroBuf e) (hf : ZeroBuf f) :
    right_taps a b c d e f = 0 := by
  simp [right_taps, get_delay_zero _ ha, get_delay_zero _ hb, get_delay_zero _ hc,
    get_delay_zero _ hd, get_delay_zero _ he, get_delay_zero _ hf]

/-- Resizing a modulated line never changes the stored modulation extent. -/
theorem set_mdelay_extent (m : ModDelayLine) (len : ℤ) :
    (set_mdelay m len).modulation_extent = m.modulation_extent := by
  simp only [set_mdelay]
  split_ifs <;> rfl

/-- Resizing a modulated line keeps the read offset positive. -/
theorem set_mdelay_ro_pos (m : ModDelayLine) (len : ℤ) (h : 0 < m.read_offset) :
    0 < (set_mdelay m len).read_offset := by
  simp only [set_mdelay]
  split_ifs <;> first | exact h | (show 0 < len.toNat; omega)

/-- Resizing preserves an all-zero modulated-line buffer. -/
theorem zeroM_set_mdelay_samples (m : ModDelayLine) (len : ℤ)
    (h : ∀ i, m.samples i = 0) : ∀ i, (set_mdelay m len).samples i = 0 := by
  intro i
  simp only [set_mdelay]
  split_ifs <;> simp [h i]

/-- With a stored extent of `0` and a positive read offset,
`set_modulation_mdelay` leaves the line unmodulated (the flag is decided from
the OLD extent) and does not touch the buffer. -/
theorem set_modulation_keep_unmod (m : ModDelayLine)
    (hext : m.modulation_extent = 0) (hro : 0 < m.read_offset) (e f : ℚ) :
    (set_modulation_mdelay m e f).modulated = false ∧
    (∀ i, (set_modulation_mdelay m e f).samples i = m.samples i) := by
  simp only [set_modulation_mdelay]
  rw [if_neg (show ¬ ((m.read_offset : ℚ) ≤ m.modulation_extent) by
    rw [hext]
    exact not_le.mpr (by exact_mod_cast hro))]
  rw [if_pos hext]
  exact ⟨rfl, fun i => rfl⟩

/-- Chain used by `create_reverb` for its two modulated lines: create,
resize, then `set_modulation_mdelay`; the result is all zero and unmodulated
(the fresh extent is `0`, so the C code never raises the flag). -/
theorem zeroM_created_line (len : ℤ) (e f : ℚ) :
    ZeroMLine (set_modulation_mdelay (set_mdelay create_mdelay len) e f) := by
  have hext : (set_mdelay create_mdelay len).modulation_extent = 0 := by
    rw [set_mdelay_extent]
    rfl
  have hro : 0 < (set_mdelay create_mdelay len).read_offset :=
    set_mdelay_ro_pos _ _ (by norm_num [create_mdelay, INIT_DELAY_MAX])
  have hmod := set_modulation_keep_unmod _ hext hro e f
  constructor
  · intro i
    rw [hmod.2 i]
    exact zeroM_set_mdelay_samples create_mdelay len (fun _ => rfl) i
  · exact hmod.1

/-- Freshly constructed tanks are all-silent: every buffer zero, modulation
flags down, filter states zero. -/
theorem zeroTank_create (wj dj : ℚ) (sr : ℤ) :
    ZeroTank (create_reverb wj dj sr) := by
  refine ⟨?_, ?_, ?_, ?_, ?_, ?_, ?_, ?_, ?_, ?_, ?_, ?_, ?_, ?_, ?_, ?_⟩ <;>
    simp only [create_reverb, set_predelay_reverb, set_size_reverb,
      set_default_reverb] <;>
    first
      | rfl
      | exact zerobuf_set_delay _ _ zerobuf_create
      | exact zeroM_created_line _ _ _

/-- Core step for C7: one `compute_reverb` call with silent input on an
all-silent tank returns `(0, 0)` and leaves the tank all-silent. -/
theorem compute_zero_step (ops : RealOps) (r : DattoroReverb) (h : ZeroTank r) :
    (compute_reverb ops r 0 0).1 = 0 ∧ (compute_reverb ops r 0 0).2.1 = 0 ∧
    ZeroTank (compute_reverb ops r 0 0).2.2 := by
  obtain ⟨hpre, h142, h379, h107, h277, h672, h908, h4453, h4217, h3720, h3163,
    h1800, h2656, hps, hda, hdb⟩ := h
  have hpd := delay_zero r.pre_delay hpre
  have hs142 := stageA_zero r.input_diffusion_1 r.delay_142 h142
  have hs107 := stageA_zero r.input_diffusion_1 r.delay_107 h107
  have hs379 := stageB_zero r.input_diffusion_2 r.delay_379 h379
  have hs277 := stageB_zero r.input_diffusion_2 r.delay_277 h277
  have hm672 := mstageB_zero ops r.decay_diffusion_1 r.delay_672 h672
  have hm908 := mstageB_zero ops r.decay_diffusion_1 r.delay_908 h908
  have hd4453 := delay_zero r.delay_4453 h4453
  have hd4217 := delay_zero r.delay_4217 h4217
  have hs1800 := stageB_zero r.decay_diffusion_2 r.delay_1800 h1800
  have hs2656 := stageB_zero r.decay_diffusion_2 r.delay_2656 h2656
  have h0 : ((0 : ℚ) + 0) / 2 = 0 := by norm_num
  have hx2 : r.bandwidth * 0 + (1 - r.bandwidth) * r.pre_sample = 0 := by
    rw [hps]; ring
  have hp0 : pInput r 0 = 0 := by
    unfold pInput
    rw [delay_out_zero _ h3720]; ring
  have hq0 : qInput r 0 = 0 := by
    unfold qInput
    rw [delay_out_zero _ h3163]; ring
  have hdampA : (1 - r.damping) * 0 + r.damping * r.diffusion_sample_a = 0 := by
    rw [hda]; ring
  have hdampB : (1 - r.damping) * 0 + r.damping * r.diffusion_sample_b = 0 := by
    rw [hdb]; ring
  have hdecay : (0 : ℚ) * r.decay = 0 := by ring
  simp only [compute_reverb]
  rw [h0, hpd.1, hx2, hs142.1, hs107.1, hs379.1, hs277.1, hp0, hq0,
    hm672.1, hd4453.1, hdampA, hdecay, hs1800.1,
    hm908.1, hd4217.1, hdampB, hdecay, hs2656.1]
  refine ⟨?_, ?_, ?_⟩
  · exact left_taps_zero _ _ _ _ _ _ hd4217.2 hs2656.2 (zerobuf_delay_in _ h3163)
      hd4453.2 hs1800.2 (zerobuf_delay_in _ h3720)
  · exact right_taps_zero _ _ _ _ _ _ hd4217.2 hs2656.2 (zerobuf_delay_in _ h3163)
      hd4453.2 hs1800.2 (zerobuf_delay_in _ h3720)
  · exact ⟨hpd.2, hs142.2, hs379.2, hs107.2, hs277.2, hm672.2, hm908.2,
      hd4453.2, hd4217.2, zerobuf_delay_in _ h3720, zerobuf_delay_in _ h3163,
      hs1800.2, hs2656.2, rfl, rfl, rfl⟩

/-- C7: a freshly constructed tank (any sample rate, any `malloc` garbage in
the gain fields, any realisation of the abstracted `sin`) fed with silent
input `(0, 0)` returns `(0, 0)` on every one of the `n + 1` calls. -/
theorem c7_silence_invariance (ops : RealOps) (wj dj : ℚ) (sr : ℤ) (n : ℕ) :
    (compute_reverb ops (zero_run ops wj dj sr n) 0 0).1 = 0 ∧
    (compute_reverb ops (zero_run ops wj dj sr n) 0 0).2.1 = 0 := by
  have h : ZeroTank (zero_run ops wj dj sr n) := by
    induction n with
    | zero => exact zeroTank_create wj dj sr
    | succ n ih => exact (compute_zero_step ops _ ih).2.2
  exact ⟨(compute_zero_step ops _ h).1, (compute_zero_step ops _ h).2.1⟩

/-- Field values of `set_mdelay`: the read offset is updated only for
requests above `2`, the active length is always set to twice the request. -/
theorem set_mdelay_fields (m : ModDelayLine) (len : ℤ) :
    (set_mdelay m len).read_offset = (if 2 < len then len.toNat else m.read_offset) ∧
    (set_mdelay m len).n_samples = (len * 2).toNat := by
  simp only [set_mdelay]
  split_ifs <;> exact ⟨by trivial, by trivial⟩

/-- C10: `create_reverb` passes the `malloc` garbage of `wet_gain`/`dry_gain`
straight through (it never assigns them); no other operation of the interface
writes the two fields; only `set_gain_reverb` does, and both buffer drivers
(`mono_reverb_buffer` and `stereo_reverb_buffer`) mix with whatever the two
fields hold. -/
theorem c10_gain_initialization (ops : RealOps) (wj dj l rr fq dg wg b b1 b2 : ℚ)
    (sr : ℤ) (r : DattoroReverb) :
    (create_reverb wj dj sr).wet_gain = wj ∧
    (create_reverb wj dj sr).dry_gain = dj ∧
    (compute_reverb ops r l rr).2.2.wet_gain = r.wet_gain ∧
    (compute_reverb ops r l rr).2.2.dry_gain = r.dry_gain ∧
    (set_size_reverb r fq).wet_gain = r.wet_gain ∧
    (set_size_reverb r fq).dry_gain = r.dry_gain ∧
    (set_predelay_reverb r fq).wet_gain = r.wet_gain ∧
    (set_predelay_reverb r fq).dry_gain = r.dry_gain ∧
    (set_default_reverb r).wet_gain = r.wet_gain ∧
    (set_default_reverb r).dry_gain = r.dry_gain ∧
    (set_bandwidth_reverb r fq).wet_gain = r.wet_gain ∧
    (set_bandwidth_reverb r fq).dry_gain = r.dry_gain ∧
    (set_damping_reverb r fq).wet_gain = r.wet_gain ∧
    (set_damping_reverb r fq).dry_gain = r.dry_gain ∧
    (set_decay_reverb r fq).wet_gain = r.wet_gain ∧
    (set_decay_reverb r fq).dry_gain = r.dry_gain ∧
    (set_decay_diffusion_1_reverb r fq).wet_gain = r.wet_gain ∧
    (set_decay_diffusion_1_reverb r fq).dry_gain = r.dry_gain ∧
    (set_decay_diffusion_2_reverb r fq).wet_gain = r.wet_gain ∧
    (set_decay_diffusion_2_reverb r fq).dry_gain = r.dry_gain ∧
    (set_input_diffusion_1_reverb r fq).wet_gain = r.wet_gain ∧
    (set_input_diffusion_1_reverb r fq).dry_gain = r.dry_gain ∧
    (set_input_diffusion_2_reverb r fq).wet_gain = r.wet_gain ∧
    (set_input_diffusion_2_reverb r fq).dry_gain = r.dry_gain ∧
    (set_modulation_reverb r fq).wet_gain = r.wet_gain ∧
    (set_modulation_reverb r fq).dry_gain = r.dry_gain ∧
    (set_gain_reverb ops r dg wg).wet_gain = db_to_gain ops wg ∧
    (set_gain_reverb ops r dg wg).dry_gain = db_to_gain ops dg ∧
    mono_reverb_buffer ops r [b] =
      ([r.dry_gain * b + r.wet_gain * (compute_reverb ops r b b).1],
        (compute_reverb ops r b b).2.2) ∧
    stereo_reverb_buffer ops r [b1, b2] =
      ([r.dry_gain * b1 + r.wet_gain * (compute_reverb ops r b1 b2).1,
        r.dry_gain * b2 + r.wet_gain * (compute_reverb ops r b1 b2).2.1],
        (compute_reverb ops r b1 b2).2.2) := by
  have hw : ∀ x y : ℚ, (compute_reverb ops r x y).2.2.wet_gain = r.wet_gain :=
    fun _ _ => rfl
  have hd : ∀ x y : ℚ, (compute_reverb ops r x y).2.2.dry_gain = r.dry_gain :=
    fun _ _ => rfl
  repeat' apply And.intro
  all_goals first
    | rfl
    | (simp only [mono_reverb_buffer, stereo_reverb_buffer, hw, hd])

/-- C9: after `create_reverb(29761)` and `set_size_reverb(·, 1.0)` the twelve
internal line lengths are exactly the reference values; the two modulated
lines carry their nominal length in `read_offset`. -/
theorem c9_reference_topology :
    reverb_ref.delay_142.n_samples = 142 ∧
    reverb_ref.delay_379.n_samples = 379 ∧
    reverb_ref.delay_107.n_samples = 107 ∧
    reverb_ref.delay_277.n_samples = 277 ∧
    reverb_ref.delay_672.read_offset = 672 ∧
    reverb_ref.delay_908.read_offset = 908 ∧
    reverb_ref.delay_4453.n_samples = 4453 ∧
    reverb_ref.delay_4217.n_samples = 4217 ∧
    reverb_ref.delay_3720.n_samples = 3720 ∧
    reverb_ref.delay_3163.n_samples = 3163 ∧
    reverb_ref.delay_1800.n_samples = 1800 ∧
    reverb_ref.delay_2656.n_samples = 2656 := by
  have hsr : (create_reverb 0 0 29761).sample_rate = 29761 := rfl
  refine ⟨?_, ?_, ?_, ?_, ?_, ?_, ?_, ?_, ?_, ?_, ?_, ?_⟩ <;>
    simp only [reverb_ref, set_size_reverb, hsr] <;>
    first
      | (rw [set_delay_n_samples]; norm_num [ctrunc])
      | (rw [(set_mdelay_fields _ _).1]; norm_num [ctrunc])
  all_goals decide

/-- C2 (amended): `set_size_reverb` sets each plain line's length to the
TRUNCATION (not rounding) of `referenceLength * ratio` whenever that exceeds
`2` (leaving it unchanged otherwise), sets each modulated line's nominal
length the same way and its active length to twice the truncation; and the
output taps of `compute_reverb` read at the fixed reference offsets of
`left_taps`/`right_taps` — built from the constants 266, 2974, 1913, 1996,
1990, 187, 1066 and 353, 3627, 1228, 2673, 2111, 335, 121 — independently of
any size factor. -/
theorem c2_size_rescaling (r : DattoroReverb) (factor l rr : ℚ) (ops : RealOps) :
    ((set_size_reverb r factor).delay_142.n_samples =
      if 2 < ctrunc (142 * size_ratio r factor)
      then (ctrunc (142 * size_ratio r factor)).toNat else r.delay_142.n_samples) ∧
    ((set_size_reverb r factor).delay_379.n_samples =
      if 2 < ctrunc (379 * size_ratio r factor)
      then (ctrunc (379 * size_ratio r factor)).toNat else r.delay_379.n_samples) ∧
    ((set_size_reverb r factor).delay_107.n_samples =
      if 2 < ctrunc (107 * size_ratio r factor)
      then (ctrunc (107 * size_ratio r factor)).toNat else r.delay_107.n_samples) ∧
    ((set_size_reverb r factor).delay_277.n_samples =
      if 2 < ctrunc (277 * size_ratio r factor)
      then (ctrunc (277 * size_ratio r factor)).toNat else r.delay_277.n_samples) ∧
    ((set_size_reverb r factor).delay_4453.n_samples =
      if 2 < ctrunc (4453 * size_ratio r factor)
      then (ctrunc (4453 * size_ratio r factor)).toNat else r.delay_4453.n_samples) ∧
    ((set_size_reverb r factor).delay_4217.n_samples =
      if 2 < ctrunc (4217 * size_ratio r factor)
      then (ctrunc (4217 * size_ratio r factor)).toNat else r.delay_4217.n_samples) ∧
    ((set_size_reverb r factor).delay_3720.n_samples =
      if 2 < ctrunc (3720 * size_ratio r factor)
      then (ctrunc (3720 * size_ratio r factor)).toNat else r.delay_3720.n_samples) ∧
    ((set_size_reverb r factor).delay_3163.n_samples =
      if 2 < ctrunc (3163 * size_ratio r factor)
      then (ctrunc (3163 * size_ratio r factor)).toNat else r.delay_3163.n_samples) ∧
    ((set_size_reverb r factor).delay_1800.n_samples =
      if 2 < ctrunc (1800 * size_ratio r factor)
      then (ctrunc (1800 * size_ratio r factor)).toNat else r.delay_1800.n_samples) ∧
    ((set_size_reverb r factor).delay_2656.n_samples =
      if 2 < ctrunc (2656 * size_ratio r factor)
      then (ctrunc (2656 * size_ratio r factor)).toNat else r.delay_2656.n_samples) ∧
    ((set_size_reverb r factor).delay_672.read_offset =
      if 2 < ctrunc (672 * size_ratio r factor)
      then (ctrunc (672 * size_ratio r factor)).toNat else r.delay_672.read_offset) ∧
    ((set_size_reverb r factor).delay_672.n_samples =
      (ctrunc (672 * size_ratio r factor) * 2).toNat) ∧
    ((set_size_reverb r factor).delay_908.read_offset =
      if 2 < ctrunc (908 * size_ratio r factor)
      then (ctrunc (908 * size_ratio r factor)).toNat else r.delay_908.read_offset) ∧
    ((set_size_reverb r factor).delay_908.n_samples =
      (ctrunc (908 * size_ratio r factor) * 2).toNat) ∧
    ((compute_reverb ops r l rr).1 =
      left_taps (compute_reverb ops r l rr).2.2.delay_4217
        (compute_reverb ops r l rr).2.2.delay_2656
        (compute_reverb ops r l rr).2.2.delay_3163
        (compute_reverb ops r l rr).2.2.delay_4453
        (compute_reverb ops r l rr).2.2.delay_1800
        (compute_reverb ops r l rr).2.2.delay_3720) ∧
    ((compute_reverb ops r l rr).2.1 =
      right_taps (compute_reverb ops r l rr).2.2.delay_4217
        (compute_reverb ops r l rr).2.2.delay_2656
        (compute_reverb ops r l rr).2.2.delay_3163
        (compute_reverb ops r l rr).2.2.delay_4453
        (compute_reverb ops r l rr).2.2.delay_1800
        (compute_reverb ops r l rr).2.2.delay_3720) := by
  repeat' apply And.intro
  all_goals try simp only [set_size_reverb, size_ratio]
  all_goals first
    | rw [set_delay_n_samples]
    | exact (set_mdelay_fields _ _).1
    | exact (set_mdelay_fields _ _).2
    | rfl

/-- C2 counterexample: at the 29761 Hz reference rate, factor `5/4` gives
`142 * ratio = 177.5`, which `set_size_reverb` truncates to `177` rather than
rounding to `178`; and with factor `2`, `compute_reverb` still reads its first
left tap at the fixed offset `266` (finding the planted `1`, output `3/5`)
while the spec's rescaled taps (`left_taps_spec` with ratio `2`) read
elsewhere and return `0`. -/
theorem c2_counterexample :
    (set_size_reverb (create_reverb 0 0 29761) (5/4)).delay_142.n_samples = 177 ∧
    round ((142 : ℚ) * ((5/4) * (((29761 : ℤ) : ℚ)) / 29761)) = 178 ∧
    (compute_reverb ops0 tank_c2 0 0).1 = 3/5 ∧
    left_taps_spec 2 (compute_reverb ops0 tank_c2 0 0).2.2.delay_4217
      (compute_reverb ops0 tank_c2 0 0).2.2.delay_2656
      (compute_reverb ops0 tank_c2 0 0).2.2.delay_3163
      (compute_reverb ops0 tank_c2 0 0).2.2.delay_4453
      (compute_reverb ops0 tank_c2 0 0).2.2.delay_1800
      (compute_reverb ops0 tank_c2 0 0).2.2.delay_3720 = 0 ∧
    (3/5 : ℚ) ≠ 0 := by
  have hsr : (create_reverb 0 0 29761).sample_rate = 29761 := rfl
  refine ⟨?_, ?_, ?_, ?_, ?_⟩
  · simp only [set_size_reverb, hsr]
    rw [set_delay_n_samples]
    norm_num [ctrunc]
    decide
  · norm_num [round_eq]
  · with_unfolding_all decide
  · with_unfolding_all decide
  · norm_num

end Dattoro
